import Mathlib

/-!
Verification of the content-addressing and resolution subsystem of
`src/bot.py` (a Telegram content relay bot).

The embedding models:
- `is_valid_content_id` — the Python regex check
  `bool(re.match(r'^[A-Za-z0-9_-]{8,}$', s))`, including Python's `$`
  semantics (the dollar anchor also matches just before one trailing
  newline at the end of the string);
- `generate_unique_id` — `secrets.token_urlsafe(8)`, i.e. base64url
  encoding of 8 random bytes with the `=` padding stripped, as a function
  of the 8 random bytes;
- `ContentStore` — the JSON-file store, with the file contents modelled
  as a `FileState` (missing, unparsable, or a parsed mapping), the backup
  file made by `_ensure_file_exists`, and write-failure injection for
  `save_content` (Python `open(path, 'w')` truncates in place before
  `json.dump` fills the file, so a failure during the dump leaves a
  truncated file);
- the handler-level flows `ingest` (from `handle_private_group_message`)
  and `resolve` (from `handle_start_command`).
-/

namespace Bot

/-- Character class `[A-Za-z0-9_-]` of the identifier grammar. -/
def isIdChar (c : Char) : Bool :=
  ('A' ≤ c && c ≤ 'Z') || ('a' ≤ c && c ≤ 'z') || ('0' ≤ c && c ≤ '9')
    || c == '_' || c == '-'

/-- Embeds `is_valid_content_id` from src/bot.py line 120-122:
`bool(re.match(r'^[A-Za-z0-9_-]{8,}$', content_id))`.
The regex engine anchored at the start greedily consumes the maximal run
of class characters; the match succeeds iff that run has length at least
8 and the dollar anchor matches at the position after the run. In Python
(without re.MULTILINE) the dollar matches at the end of the string or
just before a newline that is the last character of the string. -/
def is_valid_content_id (s : String) : Bool :=
  let run := s.data.takeWhile isIdChar
  let rest := s.data.dropWhile isIdChar
  decide (8 ≤ run.length) && (rest.isEmpty || rest == ['\n'])

/-- The base64url alphabet used by `secrets.token_urlsafe`. -/
def b64urlAlphabet : List Char :=
  ['A','B','C','D','E','F','G','H','I','J','K','L','M',
   'N','O','P','Q','R','S','T','U','V','W','X','Y','Z',
   'a','b','c','d','e','f','g','h','i','j','k','l','m',
   'n','o','p','q','r','s','t','u','v','w','x','y','z',
   '0','1','2','3','4','5','6','7','8','9','-','_']

/-- The base64url digit for a 6-bit value. -/
def b64Char (n : Nat) : Char :=
  b64urlAlphabet.getD (n % 64) 'A'

/-- Base64url encoding of a full 3-byte group into 4 digits. -/
def encode3 (a b c : Nat) : List Char :=
  [b64Char (a / 4), b64Char (a % 4 * 16 + b / 16),
   b64Char (b % 16 * 4 + c / 64), b64Char (c % 64)]

/-- Base64url encoding of a final 2-byte group into 3 digits
(the fourth digit would be the `=` pad, which token_urlsafe strips). -/
def encode2 (a b : Nat) : List Char :=
  [b64Char (a / 4), b64Char (a % 4 * 16 + b / 16), b64Char (b % 16 * 4)]

/-- Embeds `generate_unique_id` from src/bot.py line 116-118:
`secrets.token_urlsafe(8)`, i.e. `base64.urlsafe_b64encode(os.urandom(8))`
with the `=` padding removed, as a function of the 8 random bytes. -/
def token_urlsafe8 (b0 b1 b2 b3 b4 b5 b6 b7 : Nat) : String :=
  ⟨encode3 b0 b1 b2 ++ encode3 b3 b4 b5 ++ encode2 b6 b7⟩

/-- One persisted entry, as written by `save_content`:
`{'chat_id': ..., 'message_id': ..., 'created_at': ...}`. -/
structure ContentRecord where
  chat_id : Int
  message_id : Int
  created_at : String
deriving DecidableEq, Repr

/-- The parsed JSON mapping: an association list keyed by content id
(Python dict: unique keys, insertion order). -/
abbrev StoreMap := List (String × ContentRecord)

/-- Python dict lookup `data[content_id]` / `content_id in data`. -/
def lookupAL : StoreMap → String → Option ContentRecord
  | [], _ => none
  | (k, v) :: rest, key => if k = key then some v else lookupAL rest key

/-- Python dict update `data[content_id] = record`: overwrite in place if
the key is present, else append. -/
def insertAL (key : String) (v : ContentRecord) : StoreMap → StoreMap
  | [] => [(key, v)]
  | (k, w) :: rest =>
      if k = key then (key, v) :: rest else (k, w) :: insertAL key v rest

/-- The state of the backing file `content_store.json`. -/
inductive FileState where
  /-- The file does not exist (open for read raises FileNotFoundError). -/
  | missing : FileState
  /-- The file exists but json.load raises JSONDecodeError; `raw` is the
  unparsable content. -/
  | corrupt (raw : String) : FileState
  /-- The file parses as a JSON object of records. -/
  | parsed (m : StoreMap) : FileState
deriving DecidableEq

/-- The persisted world: the store file plus the sidecar backup file
`content_store.json.backup` written by `_ensure_file_exists`. -/
structure PersistedState where
  file : FileState
  backup : Option String
deriving DecidableEq

/-- The two exception types raised by ContentStore methods. -/
inductive StoreError where
  | ContentNotFoundError : StoreError
  | StorageError : StoreError
deriving DecidableEq

/-- Outcome of the write phase of `save_content`. Python
`open(path, 'w')` truncates the file in place, then `json.dump` fills
it; the two failure points have different effects on the file. -/
inductive WriteOutcome where
  /-- open succeeds and json.dump completes. -/
  | ok : WriteOutcome
  /-- `open(path, 'w')` itself raises IOError: the file is untouched. -/
  | openFail : WriteOutcome
  /-- open succeeded (truncating the file to empty) and json.dump then
  raises IOError before flushing anything: the file is left empty, which
  is not parsable JSON. -/
  | dumpFail : WriteOutcome

/-- Embeds `ContentStore._ensure_file_exists` (src/bot.py line 57-71):
read and parse the file; on FileNotFoundError create it holding `{}`;
on JSONDecodeError copy the file to `<filepath>.backup` and rewrite it
as `{}`. Its own writes are modelled as succeeding. -/
def ensure_file_exists (st : PersistedState) : PersistedState :=
  match st.file with
  | .missing => { st with file := .parsed [] }
  | .corrupt raw => { file := .parsed [], backup := some raw }
  | .parsed _ => st

/-- Embeds `ContentStore.save_content` (src/bot.py line 73-92): read and
parse the whole file (FileNotFoundError is an IOError, and IOError and
JSONDecodeError are both caught and re-raised as StorageError, leaving
the file untouched); insert the record at `content_id`; reopen the file
with mode 'w' (truncating it) and dump the new mapping. `w` injects the
outcome of the write phase, `now` is `datetime.now().isoformat()`. -/
def save_content (w : WriteOutcome) (now : String) (st : PersistedState)
    (content_id : String) (chat_id message_id : Int) :
    Except StoreError Unit × PersistedState :=
  match st.file with
  | .missing => (.error .StorageError, st)
  | .corrupt _ => (.error .StorageError, st)
  | .parsed m =>
      let entry : ContentRecord :=
        { chat_id := chat_id, message_id := message_id, created_at := now }
      match w with
      | .ok => (.ok (), { st with file := .parsed (insertAL content_id entry m) })
      | .openFail => (.error .StorageError, st)
      | .dumpFail => (.error .StorageError, { st with file := .corrupt "" })

/-- Embeds `ContentStore.get_content` (src/bot.py line 94-110): read and
parse the whole file (FileNotFoundError and JSONDecodeError each become
StorageError); raise ContentNotFoundError if the id is absent; otherwise
return the stored record. The file is opened read-only and never
written. -/
def get_content (st : PersistedState) (content_id : String) :
    Except StoreError ContentRecord × PersistedState :=
  match st.file with
  | .missing => (.error .StorageError, st)
  | .corrupt _ => (.error .StorageError, st)
  | .parsed m =>
      match lookupAL m content_id with
      | none => (.error .ContentNotFoundError, st)
      | some r => (.ok r, st)

/-- The typed outcomes of the resolution flow at the spec level. -/
inductive ResolveError where
  | InvalidFormat : ResolveError
  | NotFound : ResolveError
  | StorageFailure : ResolveError
deriving DecidableEq

/-- Embeds the resolution path of `handle_start_command`
(src/bot.py line 198-216): take the raw id, check
`is_valid_content_id` and stop with an invalid-format reply before any
store access if it fails; otherwise construct `ContentStore()` (which
runs `_ensure_file_exists`) and call `get_content`, mapping
ContentNotFoundError to the NotFound outcome and StorageError to the
StorageFailure outcome. -/
def resolve (st : PersistedState) (raw_id : String) :
    Except ResolveError ContentRecord × PersistedState :=
  if is_valid_content_id raw_id then
    let st1 := ensure_file_exists st
    match get_content st1 raw_id with
    | (.ok r, st2) => (.ok r, st2)
    | (.error .ContentNotFoundError, st2) => (.error .NotFound, st2)
    | (.error .StorageError, st2) => (.error .StorageFailure, st2)
  else
    (.error .InvalidFormat, st)

/-- Embeds the ingestion path of `handle_private_group_message`
(src/bot.py line 137-146): generate a fresh id with
`generate_unique_id()` (here a function of the 8 random bytes),
construct `ContentStore()` (which runs `_ensure_file_exists`), save the
record, and return the id on success. StorageError propagates. -/
def ingest (w : WriteOutcome) (now : String) (st : PersistedState)
    (b0 b1 b2 b3 b4 b5 b6 b7 : Nat) (chat_id message_id : Int) :
    Except StoreError String × PersistedState :=
  let cid := token_urlsafe8 b0 b1 b2 b3 b4 b5 b6 b7
  let st1 := ensure_file_exists st
  match save_content w now st1 cid chat_id message_id with
  | (.ok _, st2) => (.ok cid, st2)
  | (.error e, st2) => (.error e, st2)

/-- Whenever the store file parses as a mapping, every key of that
mapping is a valid identifier. -/
def stateKeysValid (st : PersistedState) : Bool :=
  match st.file with
  | .parsed m => m.all fun p => is_valid_content_id p.1
  | _ => true

/-- The states reachable from the freshly initialized empty store by the
subsystem's own operations: initialization, ingestion (which only ever
inserts identifiers produced by `generate_unique_id`, with any write
outcome), and retrieval. -/
inductive Reachable : PersistedState → Prop where
  | init : Reachable ⟨.parsed [], none⟩
  | ensure_op (st : PersistedState) : Reachable st →
      Reachable (ensure_file_exists st)
  | ingest_op (st : PersistedState) (w : WriteOutcome) (now : String)
      (b0 b1 b2 b3 b4 b5 b6 b7 : Nat) (chat_id message_id : Int) :
      Reachable st →
      Reachable (ingest w now st b0 b1 b2 b3 b4 b5 b6 b7 chat_id message_id).2
  | get_op (st : PersistedState) (cid : String) : Reachable st →
      Reachable (get_content st cid).2

/-! ### Helper lemmas -/

/-- Every base64url digit position yields a character of the id grammar. -/
theorem isIdChar_b64urlAlphabet :
    ∀ i : Fin 64, isIdChar (b64urlAlphabet.getD i.val 'A') = true := by
  decide

theorem isIdChar_b64Char (n : Nat) : isIdChar (b64Char n) = true :=
  isIdChar_b64urlAlphabet ⟨n % 64, Nat.mod_lt n (by decide)⟩

theorem all_token_urlsafe8 (b0 b1 b2 b3 b4 b5 b6 b7 : Nat) :
    (token_urlsafe8 b0 b1 b2 b3 b4 b5 b6 b7).data.all isIdChar = true := by
  simp [token_urlsafe8, encode3, encode2, isIdChar_b64Char]

theorem length_token_urlsafe8 (b0 b1 b2 b3 b4 b5 b6 b7 : Nat) :
    (token_urlsafe8 b0 b1 b2 b3 b4 b5 b6 b7).length = 11 :=
  rfl

theorem takeWhile_of_all (l : List Char) (h : l.all isIdChar = true) :
    l.takeWhile isIdChar = l :=
  List.takeWhile_eq_self_iff.mpr (by simpa [List.all_eq_true] using h)

theorem dropWhile_of_all (l : List Char) (h : l.all isIdChar = true) :
    l.dropWhile isIdChar = [] :=
  List.dropWhile_eq_nil_iff.mpr (by simpa [List.all_eq_true] using h)

theorem takeWhile_append_nl (t : List Char) (h : t.all isIdChar = true) :
    (t ++ ['\n']).takeWhile isIdChar = t := by
  induction t with
  | nil => decide
  | cons a t ih =>
      simp only [List.all_cons, Bool.and_eq_true] at h
      simp [List.takeWhile_cons, h.1, ih h.2]

theorem dropWhile_append_nl (t : List Char) (h : t.all isIdChar = true) :
    (t ++ ['\n']).dropWhile isIdChar = ['\n'] := by
  induction t with
  | nil => decide
  | cons a t ih =>
      simp only [List.all_cons, Bool.and_eq_true] at h
      simp [List.dropWhile_cons, h.1, ih h.2]

theorem valid_of_all (l : List Char) (h : l.all isIdChar = true)
    (hl : 8 ≤ l.length) : is_valid_content_id ⟨l⟩ = true := by
  simp [is_valid_content_id, takeWhile_of_all l h, dropWhile_of_all l h, hl]

theorem token_urlsafe8_valid (b0 b1 b2 b3 b4 b5 b6 b7 : Nat) :
    is_valid_content_id (token_urlsafe8 b0 b1 b2 b3 b4 b5 b6 b7) = true :=
  valid_of_all _ (all_token_urlsafe8 b0 b1 b2 b3 b4 b5 b6 b7)
    (by simp [encode3, encode2])

theorem lookupAL_insertAL_self (m : StoreMap) (k : String) (v : ContentRecord) :
    lookupAL (insertAL k v m) k = some v := by
  induction m with
  | nil => simp [insertAL, lookupAL]
  | cons p m ih =>
      obtain ⟨k1, v1⟩ := p
      by_cases h : k1 = k
      · simp [insertAL, h, lookupAL]
      · simp [insertAL, h, lookupAL, ih]

theorem lookupAL_insertAL_ne (m : StoreMap) (k : String) (v : ContentRecord)
    (key : String) (h : key ≠ k) :
    lookupAL (insertAL k v m) key = lookupAL m key := by
  induction m with
  | nil => simp [insertAL, lookupAL, Ne.symm h]
  | cons p m ih =>
      obtain ⟨k1, v1⟩ := p
      by_cases h1 : k1 = k
      · simp [insertAL, h1, lookupAL, Ne.symm h]
      · simp [insertAL, h1, lookupAL, ih]

theorem all_insertAL (m : StoreMap) (k : String) (v : ContentRecord)
    (P : String × ContentRecord → Bool) (hk : P (k, v) = true)
    (hm : m.all P = true) : (insertAL k v m).all P = true := by
  induction m with
  | nil => simp [insertAL, hk]
  | cons p m ih =>
      obtain ⟨k1, v1⟩ := p
      simp only [List.all_cons, Bool.and_eq_true] at hm
      by_cases h1 : k1 = k
      · simp [insertAL, h1, hk, hm.2]
      · simp [insertAL, h1, hm.1, ih hm.2]

theorem get_content_snd (st : PersistedState) (cid : String) :
    (get_content st cid).2 = st := by
  obtain ⟨file, bk⟩ := st
  cases file with
  | missing => rfl
  | corrupt raw => rfl
  | parsed m =>
      simp only [get_content]
      cases lookupAL m cid <;> rfl

theorem ensure_gives_parsed (st : PersistedState) :
    ∃ m bk, ensure_file_exists st = ⟨.parsed m, bk⟩ := by
  obtain ⟨file, b⟩ := st
  cases file with
  | missing => exact ⟨[], b, rfl⟩
  | corrupt raw => exact ⟨[], some raw, rfl⟩
  | parsed m => exact ⟨m, b, rfl⟩

theorem stateKeysValid_ensure (st : PersistedState)
    (h : stateKeysValid st = true) :
    stateKeysValid (ensure_file_exists st) = true := by
  obtain ⟨file, bk⟩ := st
  cases file with
  | missing => rfl
  | corrupt raw => rfl
  | parsed m => exact h

theorem stateKeysValid_save (w : WriteOutcome) (now : String)
    (st : PersistedState) (cid : String) (c mi : Int)
    (h : stateKeysValid st = true) (hcid : is_valid_content_id cid = true) :
    stateKeysValid (save_content w now st cid c mi).2 = true := by
  obtain ⟨file, bk⟩ := st
  cases file with
  | missing => exact h
  | corrupt raw => exact h
  | parsed m =>
      cases w with
      | ok =>
          simp only [save_content, stateKeysValid] at h ⊢
          exact all_insertAL m cid _ _ hcid h
      | openFail => exact h
      | dumpFail => rfl

theorem ingest_snd (w : WriteOutcome) (now : String) (st : PersistedState)
    (b0 b1 b2 b3 b4 b5 b6 b7 : Nat) (c mi : Int) :
    (ingest w now st b0 b1 b2 b3 b4 b5 b6 b7 c mi).2
      = (save_content w now (ensure_file_exists st)
          (token_urlsafe8 b0 b1 b2 b3 b4 b5 b6 b7) c mi).2 := by
  simp only [ingest]
  rcases hsave : save_content w now (ensure_file_exists st)
      (token_urlsafe8 b0 b1 b2 b3 b4 b5 b6 b7) c mi with ⟨res, st2⟩
  cases res <;> simp

/-! ### Claim theorems -/

/-- C1: Round-trip law. For every pair of integers (chat_id, message_id),
every starting persisted state and every choice of the 8 random bytes,
ingesting (generating a fresh id via `generate_unique_id` and persisting
the record via `save_content`, with the write completing) returns an id
whose resolution yields a record containing exactly that chat_id
(source_id) and message_id (item_ref). -/
theorem ingest_resolve_roundtrip (st : PersistedState) (now : String)
    (b0 b1 b2 b3 b4 b5 b6 b7 : Nat) (chat_id message_id : Int) :
    ∃ (cid : String) (st2 : PersistedState) (r : ContentRecord),
      ingest .ok now st b0 b1 b2 b3 b4 b5 b6 b7 chat_id message_id
          = (.ok cid, st2)
        ∧ (resolve st2 cid).1 = .ok r
        ∧ r.chat_id = chat_id ∧ r.message_id = message_id := by
  obtain ⟨m, bk, hens⟩ := ensure_gives_parsed st
  refine ⟨token_urlsafe8 b0 b1 b2 b3 b4 b5 b6 b7,
    ⟨.parsed (insertAL (token_urlsafe8 b0 b1 b2 b3 b4 b5 b6 b7)
        ⟨chat_id, message_id, now⟩ m), bk⟩,
    ⟨chat_id, message_id, now⟩, ?_, ?_, rfl, rfl⟩
  · simp [ingest, hens, save_content]
  · simp [resolve, token_urlsafe8_valid, ensure_file_exists, get_content,
      lookupAL_insertAL_self]

/-- C2 counterexample: the validator accepts "abcdefgh\n" although that
string contains a character (the trailing newline) outside the set
[A-Za-z0-9_-], because Python's dollar anchor also matches just before a
trailing newline. This refutes the claim that every string containing a
character outside the set is rejected. -/
theorem is_valid_newline_counterexample :
    is_valid_content_id "abcdefgh\n" = true
      ∧ '\n' ∈ "abcdefgh\n".data ∧ isIdChar '\n' = false := by
  refine ⟨?_, ?_, ?_⟩ <;> decide

/-- C2 amended: is_valid_content_id returns true iff either the candidate
has length at least 8 and every character in [A-Za-z0-9_-], or the
candidate is such a string followed by exactly one trailing newline
(Python re's dollar anchor matches before a final newline). -/
theorem is_valid_content_id_characterization (s : String) :
    is_valid_content_id s = true ↔
      (8 ≤ s.data.length ∧ s.data.all isIdChar = true)
      ∨ (∃ t : List Char, s.data = t ++ ['\n'] ∧ 8 ≤ t.length
          ∧ t.all isIdChar = true) := by
  obtain ⟨l⟩ := s
  show is_valid_content_id ⟨l⟩ = true ↔
    (8 ≤ l.length ∧ l.all isIdChar = true)
    ∨ (∃ t : List Char, l = t ++ ['\n'] ∧ 8 ≤ t.length
        ∧ t.all isIdChar = true)
  constructor
  · intro h
    simp only [is_valid_content_id, Bool.and_eq_true, decide_eq_true_eq,
      Bool.or_eq_true, List.isEmpty_iff, beq_iff_eq] at h
    obtain ⟨hlen, hrest⟩ := h
    have hsplit := List.takeWhile_append_dropWhile (p := isIdChar) (l := l)
    have hall : (l.takeWhile isIdChar).all isIdChar = true := by
      simp only [List.all_eq_true]
      exact fun x hx => List.mem_takeWhile_imp hx
    cases hrest with
    | inl h0 =>
        have hT : l.takeWhile isIdChar = l := by
          simpa [h0] using hsplit
        exact Or.inl ⟨hT ▸ hlen, hT ▸ hall⟩
    | inr h1 =>
        refine Or.inr ⟨l.takeWhile isIdChar, ?_, hlen, hall⟩
        conv_lhs => rw [← hsplit, h1]
  · intro h
    cases h with
    | inl h =>
        exact valid_of_all l h.2 h.1
    | inr h =>
        obtain ⟨t, rfl, hlen, hall⟩ := h
        simp [is_valid_content_id, takeWhile_append_nl t hall,
          dropWhile_append_nl t hall, hlen]

/-- C3 counterexample: save_content rewrites the file by in-place
truncation (Python open(path, 'w')) followed by json.dump; if the dump
fails after the truncation, the put fails with StorageError and the file
is left truncated, so the previously stored record "AAAAAAAA" — which was
retrievable before the failed put — is lost (retrieving it afterwards
fails with StorageError). This refutes the claim that a failed put leaves
the persisted mapping unchanged. -/
theorem save_content_truncation_counterexample :
    save_content .dumpFail "t1"
        ⟨.parsed [("AAAAAAAA", ⟨1, 2, "t0"⟩)], none⟩ "BBBBBBBB" 3 4
        = (.error .StorageError, ⟨.corrupt "", none⟩)
      ∧ (get_content ⟨.parsed [("AAAAAAAA", ⟨1, 2, "t0"⟩)], none⟩
          "AAAAAAAA").1 = .ok ⟨1, 2, "t0"⟩
      ∧ (get_content ⟨.corrupt "", none⟩ "AAAAAAAA").1
          = .error .StorageError := by
  refine ⟨?_, ?_, ?_⟩ <;> rfl

/-- C3 amended: if save_content fails while reading the mapping (medium
missing or unparsable) or while opening the file for write, it raises
StorageError and the persisted state is unchanged; but the rewrite is
performed by in-place truncation then fill (open 'w' then json.dump), not
by write-to-temporary-then-atomic-replace, so a failure during the dump
raises StorageError while leaving the file truncated to unparsable
content, losing every previously stored record. -/
theorem save_content_failure_semantics (bk : Option String)
    (raw now cid : String) (c mi : Int) (m : StoreMap) (w : WriteOutcome) :
    save_content w now ⟨.missing, bk⟩ cid c mi
        = (.error .StorageError, ⟨.missing, bk⟩)
      ∧ save_content w now ⟨.corrupt raw, bk⟩ cid c mi
          = (.error .StorageError, ⟨.corrupt raw, bk⟩)
      ∧ save_content .openFail now ⟨.parsed m, bk⟩ cid c mi
          = (.error .StorageError, ⟨.parsed m, bk⟩)
      ∧ save_content .dumpFail now ⟨.parsed m, bk⟩ cid c mi
          = (.error .StorageError, ⟨.corrupt "", bk⟩) :=
  ⟨rfl, rfl, rfl, rfl⟩

/-- C4: get_content raises exactly one of two typed failures and never
confuses them: it fails with ContentNotFoundError iff the file parses to
a mapping in which the id is absent; it fails with StorageError iff the
file is missing or unparsable; and it returns a record r iff the file
parses to a mapping holding r at the id. -/
theorem get_content_error_taxonomy (st : PersistedState) (cid : String) :
    ((get_content st cid).1 = .error .ContentNotFoundError ↔
        ∃ m, st.file = .parsed m ∧ lookupAL m cid = none)
      ∧ ((get_content st cid).1 = .error .StorageError ↔
          st.file = .missing ∨ ∃ raw, st.file = .corrupt raw)
      ∧ (∀ r : ContentRecord, (get_content st cid).1 = .ok r ↔
          ∃ m, st.file = .parsed m ∧ lookupAL m cid = some r) := by
  obtain ⟨file, bk⟩ := st
  cases file with
  | missing => simp [get_content]
  | corrupt raw => simp [get_content]
  | parsed m =>
      cases h : lookupAL m cid with
      | none => simp [get_content, h]
      | some r => simp [get_content, h]

/-- C5 counterexample: "abcdefgh\n" contains a character outside
[A-Za-z0-9_-] (the trailing newline), yet resolve does not fail with
InvalidFormat: the validator accepts it, the store is constructed (here
creating the missing file, an observable store access), and the lookup
fails with NotFound instead. -/
theorem resolve_newline_counterexample :
    isIdChar '\n' = false
      ∧ '\n' ∈ "abcdefgh\n".data
      ∧ resolve ⟨.missing, none⟩ "abcdefgh\n"
          = (.error .NotFound, ⟨.parsed [], none⟩) := by
  refine ⟨by decide, by decide, ?_⟩
  rfl

/-- C5 amended: for every raw identifier string that fails the validator
is_valid_content_id (note the validator also accepts a valid core
followed by one trailing newline), resolve fails with InvalidFormat and
performs no store access: the persisted state is returned exactly
unchanged, the check happening before the store is constructed. -/
theorem resolve_invalid_no_store_access (st : PersistedState)
    (raw_id : String) (h : is_valid_content_id raw_id = false) :
    resolve st raw_id = (.error .InvalidFormat, st) := by
  simp [resolve, h]

/-- C5 witness: the amended theorem applied to the short string "short"
and a concrete store state. -/
theorem resolve_invalid_no_store_access_witness :
    is_valid_content_id "short" = false
      ∧ resolve ⟨.parsed [("AAAAAAAA", ⟨1, 2, "t0"⟩)], none⟩ "short"
          = (.error .InvalidFormat,
             ⟨.parsed [("AAAAAAAA", ⟨1, 2, "t0"⟩)], none⟩) :=
  ⟨by decide, resolve_invalid_no_store_access _ _ (by decide)⟩

/-- C6: store initialization with a corrupted (unparsable) medium does
not fail: the unparsable content is preserved in the backup location and
the medium is reinitialized to an empty mapping, after which the next
store operation (a save) succeeds; a missing medium is created holding
the empty mapping. -/
theorem ensure_file_exists_recovery (raw now : String) (bk : Option String)
    (cid : String) (c mi : Int) :
    ensure_file_exists ⟨.corrupt raw, bk⟩ = ⟨.parsed [], some raw⟩
      ∧ ensure_file_exists ⟨.missing, bk⟩ = ⟨.parsed [], bk⟩
      ∧ (save_content .ok now (ensure_file_exists ⟨.corrupt raw, bk⟩)
          cid c mi).1 = .ok () :=
  ⟨rfl, rfl, rfl⟩

/-- C7: every identifier produced by generate_unique_id (modelled as
token_urlsafe8 over the 8 random bytes) has length at least 11, consists
only of characters from [A-Za-z0-9_-], and is accepted by
is_valid_content_id. -/
theorem generate_unique_id_valid (b0 b1 b2 b3 b4 b5 b6 b7 : Nat) :
    11 ≤ (token_urlsafe8 b0 b1 b2 b3 b4 b5 b6 b7).length
      ∧ (token_urlsafe8 b0 b1 b2 b3 b4 b5 b6 b7).data.all isIdChar = true
      ∧ is_valid_content_id (token_urlsafe8 b0 b1 b2 b3 b4 b5 b6 b7)
          = true :=
  ⟨Nat.le_of_eq (length_token_urlsafe8 b0 b1 b2 b3 b4 b5 b6 b7).symm,
   all_token_urlsafe8 b0 b1 b2 b3 b4 b5 b6 b7,
   token_urlsafe8_valid b0 b1 b2 b3 b4 b5 b6 b7⟩

/-- Ingestion preserves key validity of the persisted mapping. -/
theorem stateKeysValid_ingest (st : PersistedState) (w : WriteOutcome)
    (now : String) (b0 b1 b2 b3 b4 b5 b6 b7 : Nat) (c mi : Int)
    (h : stateKeysValid st = true) :
    stateKeysValid (ingest w now st b0 b1 b2 b3 b4 b5 b6 b7 c mi).2
      = true := by
  rw [ingest_snd]
  exact stateKeysValid_save w now (ensure_file_exists st) _ c mi
    (stateKeysValid_ensure st h) (token_urlsafe8_valid b0 b1 b2 b3 b4 b5 b6 b7)

/-- C8: store invariant. In every persisted state reachable from the
freshly initialized empty store by the subsystem's own operations
(initialization, ingestion — which only inserts identifiers produced by
generate_unique_id — and retrieval), every key of the parsed mapping is a
valid identifier per is_valid_content_id. -/
theorem reachable_keys_valid (st : PersistedState) (h : Reachable st) :
    stateKeysValid st = true := by
  induction h with
  | init => rfl
  | ensure_op st _ ih => exact stateKeysValid_ensure st ih
  | ingest_op st w now b0 b1 b2 b3 b4 b5 b6 b7 c mi _ ih =>
      exact stateKeysValid_ingest st w now b0 b1 b2 b3 b4 b5 b6 b7 c mi ih
  | get_op st cid _ ih => rw [get_content_snd]; exact ih

/-- C8 witness: the invariant holds after one concrete ingestion from the
empty store. -/
theorem reachable_keys_valid_witness :
    stateKeysValid
        (ingest .ok "2024-01-01T00:00:00" ⟨.parsed [], none⟩
          0 0 0 0 0 0 0 0 1001 42).2 = true :=
  reachable_keys_valid _
    (Reachable.ingest_op _ .ok "2024-01-01T00:00:00"
      0 0 0 0 0 0 0 0 1001 42 Reachable.init)

/-- C9: frame property of put. A successful save_content on a parsed
mapping rewrites the file to exactly the old mapping with the new record
inserted at the given id, and every other key's stored record is
unchanged under lookup. -/
theorem save_content_frame (m : StoreMap) (bk : Option String)
    (now cid : String) (c mi : Int) (k : String) (hk : k ≠ cid) :
    (save_content .ok now ⟨.parsed m, bk⟩ cid c mi).2
        = ⟨.parsed (insertAL cid ⟨c, mi, now⟩ m), bk⟩
      ∧ lookupAL (insertAL cid ⟨c, mi, now⟩ m) k = lookupAL m k :=
  ⟨rfl, lookupAL_insertAL_ne m cid ⟨c, mi, now⟩ k hk⟩

/-- C9 witness: the frame property at a concrete mapping, inserted id and
distinct other key. -/
theorem save_content_frame_witness :
    (save_content .ok "t1" ⟨.parsed [("AAAAAAAA", ⟨1, 2, "t0"⟩)], none⟩
        "BBBBBBBB" 3 4).2
        = ⟨.parsed (insertAL "BBBBBBBB" ⟨3, 4, "t1"⟩
            [("AAAAAAAA", ⟨1, 2, "t0"⟩)]), none⟩
      ∧ lookupAL (insertAL "BBBBBBBB" ⟨3, 4, "t1"⟩
          [("AAAAAAAA", ⟨1, 2, "t0"⟩)]) "AAAAAAAA"
        = lookupAL [("AAAAAAAA", ⟨1, 2, "t0"⟩)] "AAAAAAAA" :=
  save_content_frame [("AAAAAAAA", ⟨1, 2, "t0"⟩)] none "t1" "BBBBBBBB"
    3 4 "AAAAAAAA" (by decide)

/-- C10: get_content is read-only. For every identifier and every state
whose medium parses to a mapping, the call — whether it returns a record
or fails with ContentNotFoundError — leaves the persisted state exactly
unchanged. -/
theorem get_content_readonly (m : StoreMap) (bk : Option String)
    (cid : String) :
    (get_content ⟨.parsed m, bk⟩ cid).2 = ⟨.parsed m, bk⟩ :=
  get_content_snd ⟨.parsed m, bk⟩ cid

end Bot
